import Mathlib

/-!
Verification of the MDF Connect client (`mdf_connect_client/mdfcc.py`):
a shallow embedding of the submission-envelope builder, the submission
lifecycle checks, the indexing-instruction setter and the curation verdict
flow, together with theorems settling the specification claims.

Python values that flow through the client (dicts, lists, strings,
booleans, numbers — including non-finite floats, which `json.dumps`
with `allow_nan=False` rejects) are modelled by the inductive `Json`
below.  Non-finite floats are collapsed into the single constructor
`nanOrInf`: the only observation the client ever makes of them is that
serialization fails.  Arrays and objects carry their own spine types
(`JsonArr`, `JsonObj`) so that all functions are structurally recursive
and compute inside the kernel.
-/

mutual

inductive Json where
  | null
  | bool (b : Bool)
  | num (n : Int)
  | nanOrInf
  | str (s : String)
  | arr (elems : JsonArr)
  | obj (fields : JsonObj)

inductive JsonArr where
  | nil
  | cons (hd : Json) (tl : JsonArr)

inductive JsonObj where
  | nil
  | cons (key : String) (val : Json) (tl : JsonObj)

end

/-- Build a `JsonArr` spine from a list of values. -/
def JsonArr.ofList : List Json → JsonArr
  | [] => .nil
  | x :: xs => .cons x (JsonArr.ofList xs)

/-- Flatten a `JsonArr` spine back into a list of values. -/
def JsonArr.toList : JsonArr → List Json
  | .nil => []
  | .cons x xs => x :: xs.toList

/-- Build a `JsonObj` spine from a list of key/value pairs. -/
def JsonObj.ofList : List (String × Json) → JsonObj
  | [] => .nil
  | (k, v) :: kvs => .cons k v (JsonObj.ofList kvs)

/-- Is the array spine empty? -/
def JsonArr.isEmpty : JsonArr → Bool
  | .nil => true
  | .cons _ _ => false

/-- Is the object spine empty? -/
def JsonObj.isEmpty : JsonObj → Bool
  | .nil => true
  | .cons _ _ _ => false

/-- Python truthiness (`bool(x)`) for the modelled values: `None`, `False`,
`0`, `""`, `[]` and `{}` are falsy; a non-finite float is truthy. -/
def Json.pyTruthy : Json → Bool
  | .null => false
  | .bool b => b
  | .num n => n != 0
  | .nanOrInf => true
  | .str s => s != ""
  | .arr es => !es.isEmpty
  | .obj fs => !fs.isEmpty

mutual

/-- `json.dumps(x, allow_nan=False)` succeeds exactly when no non-finite
float occurs anywhere in the value. -/
def Json.serializable : Json → Bool
  | .nanOrInf => false
  | .arr es => es.serializableArr
  | .obj fs => fs.serializableObj
  | .null => true
  | .bool _ => true
  | .num _ => true
  | .str _ => true

def JsonArr.serializableArr : JsonArr → Bool
  | .nil => true
  | .cons x xs => x.serializable && xs.serializableArr

def JsonObj.serializableObj : JsonObj → Bool
  | .nil => true
  | .cons _ v kvs => v.serializable && kvs.serializableObj

end

/-! ## Python string operations

All operations work on `List Char` with structural recursion so that
concrete instances evaluate inside the kernel. -/

/-- The characters Python's unadorned `str.strip()` removes, restricted to
the ASCII whitespace that can occur in this client's inputs. -/
def pyWs (c : Char) : Bool := c = ' ' || c = '\t' || c = '\n' || c = '\r'

/-- Drop characters satisfying `p` from both ends of a character list. -/
def stripEnds (p : Char → Bool) (l : List Char) : List Char :=
  ((l.dropWhile p).reverse.dropWhile p).reverse

/-- Python `s.strip()`. -/
def pyStripStr (s : String) : String := String.mk (stripEnds pyWs s.toList)

/-- Python `s.strip(" ,")`, used for the `creatorName` display form. -/
def pyStripSpaceComma (s : String) : String :=
  String.mk (stripEnds (fun c => c = ' ' || c = ',') s.toList)

/-- ASCII lowercasing, the fragment of Python `str.lower()` exercised here. -/
def asciiLower (c : Char) : Char :=
  if 'A' ≤ c && c ≤ 'Z' then Char.ofNat (c.toNat + 32) else c

/-- Python `s.strip().lower()` as used by `_complete_curation_task`. -/
def pyStripLower (s : String) : String :=
  String.mk ((stripEnds pyWs s.toList).map asciiLower)

/-- Does the second character list start with the first? -/
def listStarts : List Char → List Char → Bool
  | [], _ => true
  | _ :: _, [] => false
  | a :: as, b :: bs => a == b && listStarts as bs

/-- Does `pat` occur as a contiguous substring of `hay`?  (Python's
`pat in hay` on strings.) -/
def listHasSub (pat : List Char) : List Char → Bool
  | [] => pat.isEmpty
  | b :: hay => listStarts pat (b :: hay) || listHasSub pat hay

/-- Split a character list at the first occurrence of `c`; `none` when `c`
does not occur. -/
def breakAtChar (c : Char) : List Char → Option (List Char × List Char)
  | [] => none
  | x :: xs =>
    if x = c then some ([], xs)
    else
      match breakAtChar c xs with
      | none => none
      | some (l, r) => some (x :: l, r)

/-! ## Name parsing and the creators list of `create_dc_block` -/

/-- Modelled from the spec: `create_dc_block` delegates per-author name
splitting to the external `nameparser.HumanName` library, whose source is
not part of this repository.  Spec §4.3 gives the `splitName` contract the
library revision is treated as implementing: first comma → left is family,
right is given; else first semicolon → the same; else first space → left is
given, right is family; else the whole string is the given name and the
family name is empty; both parts trimmed.  Returns `(given, family)`. -/
def splitName (raw : String) : String × String :=
  match breakAtChar ',' raw.toList with
  | some (l, r) => (pyStripStr (String.mk r), pyStripStr (String.mk l))
  | none =>
    match breakAtChar ';' raw.toList with
    | some (l, r) => (pyStripStr (String.mk r), pyStripStr (String.mk l))
    | none =>
      match breakAtChar ' ' raw.toList with
      | some (l, r) => (pyStripStr (String.mk l), pyStripStr (String.mk r))
      | none => (raw, "")

/-- The four fields of a parsed `nameparser.HumanName` that
`create_dc_block` reads (lines 208-210). -/
structure HumanNameFields where
  first : String
  middle : String
  last : String
  suffix : String

/-- Modelled from the spec: the parsed name, with the given/family split of
§4.3 and the richer middle/suffix fields (which no claim relies on) empty. -/
def humanName (raw : String) : HumanNameFields :=
  ⟨(splitName raw).1, "", (splitName raw).2, ""⟩

/-- One entry of the `creators` list built by `create_dc_block` (lines
206-220).  `affiliations = none` models the `"affiliations"` key being
absent from the creator dict: the code sets the key only when the
normalized per-author list `affs` is non-empty. -/
structure Creator where
  creatorName : String
  familyName : String
  givenName : String
  affiliations : Option (List Json)

/-- `if not affiliations: affiliations = [] / elif not isinstance(affiliations,
list): affiliations = [affiliations]` (lines 200-203): the normalized
affiliations list. -/
def normalizeAffiliations : Option Json → List Json
  | none => []
  | some j =>
    if !j.pyTruthy then []
    else
      match j with
      | .arr l => l.toList
      | x => [x]

/-- `if not isinstance(affs, list): affs = [affs]` (lines 216-217). -/
def entryToList : Json → List Json
  | .arr l => l.toList
  | x => [x]

/-- `if affs: creator["affiliations"] = affs` (lines 218-219): the value of
the creator's `"affiliations"` key, absent exactly when the normalized
per-author list is empty. -/
def affKey (affs : List Json) : Option (List Json) :=
  if affs.isEmpty then none else some affs

/-- The `creator` dict built for one author (lines 208-219), from the
already-normalized per-author affiliation list. -/
def mkCreator (auth : String) (affs : List Json) : Creator :=
  let n := humanName auth
  let given := pyStripStr (n.first ++ " " ++ n.middle)
  let family := pyStripStr (n.last ++ " " ++ n.suffix)
  { creatorName := pyStripSpaceComma (family ++ ", " ++ given)
    familyName := family
    givenName := given
    affiliations := affKey affs }

/-- The `creators` list of `create_dc_block` (lines 197-220), for an
already-list-normalized `authors` argument: affiliations are normalized;
when their number differs from the number of authors the whole normalized
list is broadcast to every author, and only an exact length match is zipped
positionally. -/
def buildCreators (authors : List String) (affiliations : Option Json) : List Creator :=
  let affs := normalizeAffiliations affiliations
  let aligned :=
    if authors.length = affs.length then affs
    else List.replicate authors.length (Json.arr (JsonArr.ofList affs))
  (authors.zip aligned).map fun p => mkCreator p.1 (entryToList p.2)

/-- Sanity check of the embedding against `test_create_dc_block` in the
repository's test suite: one author with one scalar affiliation yields the
creator record the test asserts. -/
theorem buildCreators_matches_test_single :
    buildCreators ["Data Facility, Materials"] (some (Json.str "UChicago")) =
      [⟨"Data Facility, Materials", "Data Facility", "Materials",
        some [Json.str "UChicago"]⟩] := rfl

/-- Sanity check of the embedding against `test_create_dc_block`: three
authors with a two-element affiliations list broadcast the whole pair to
every creator, and the space-separated author is split given-first. -/
theorem buildCreators_matches_test_lists :
    buildCreators ["Data Facility, Materials", "Blaiszik, Ben", "Jonathon Gaff"]
        (some (Json.arr (JsonArr.ofList [Json.str "UChicago", Json.str "Argonne"]))) =
      [⟨"Data Facility, Materials", "Data Facility", "Materials",
        some [Json.str "UChicago", Json.str "Argonne"]⟩,
       ⟨"Blaiszik, Ben", "Blaiszik", "Ben",
        some [Json.str "UChicago", Json.str "Argonne"]⟩,
       ⟨"Gaff, Jonathon", "Gaff", "Jonathon",
        some [Json.str "UChicago", Json.str "Argonne"]⟩] := rfl

/-! ## Client state -/

/-- `CONNECT_SERVICE_LOC` (line 15). -/
def CONNECT_SERVICE_LOC : String := "https://api.materialsdatafacility.org"

/-- `CONNECT_CURATION_ROUTE` (line 20). -/
def CONNECT_CURATION_ROUTE : String := "/curate/"

/-- One indexing instruction as built by `add_index` (lines 367-375):
`delimiter`/`na_values` are `none` when the corresponding keys are absent. -/
structure IndexEntry where
  mapping : Json
  delimiter : Option String
  na_values : Option (List Json)

/-- Assoc-list lookup with Python-dict semantics (first matching key). -/
def dictFind {α : Type} : List (String × α) → String → Option α
  | [], _ => none
  | (k', v) :: rest, k => if k' == k then some v else dictFind rest k

/-- Python dict assignment `d[k] = v`: replace the value at an existing key
in place, else append the new pair. -/
def dictSet {α : Type} : List (String × α) → String → α → List (String × α)
  | [], k, v => [(k, v)]
  | (k', v') :: rest, k, v =>
    if k' == k then (k, v) :: rest else (k', v') :: dictSet rest k v

/-- The mutable submission state of `MDFConnectClient`: every field that
`reset_submission` (lines 725-765) and `get_submission` (lines 681-723)
touch, plus the constructor-set `test`, `update` and `service_loc`. -/
structure Client where
  test : Bool
  update : Bool
  service_loc : String
  dc : Json
  mdf : Json
  mrr : Json
  projects : Json
  custom : Json
  extraction_config : Json
  curation : Bool
  no_extract : Bool
  incremental_update : Json
  data_sources : List String
  external_uri : Option String
  data_destinations : List String
  index : List (String × IndexEntry)
  services : List (String × Json)
  tags : List String
  links : List Json
  dataset_acl : Option (List String)
  source_id : Option String

/-- `reset_submission` (lines 725-765): every submission field back to its
empty default.  `test`, `service_loc` — and, notably, `update` — are not
assigned anywhere in the method. -/
def reset_submission (c : Client) : Client :=
  { c with
    dc := Json.obj .nil
    mdf := Json.obj .nil
    mrr := Json.obj .nil
    projects := Json.obj .nil
    custom := Json.obj .nil
    extraction_config := Json.obj .nil
    curation := false
    no_extract := false
    incremental_update := Json.bool false
    data_sources := []
    external_uri := none
    data_destinations := []
    index := []
    services := []
    tags := []
    links := []
    dataset_acl := none
    source_id := none }

/-- `__init__` (lines 75-94): sets `test`, `update := False` and the service
location, then calls `reset_submission` for every other field. -/
def initClient (test : Bool) (service_loc : String) : Client :=
  reset_submission
    { test := test
      update := false
      service_loc := service_loc
      dc := Json.obj .nil
      mdf := Json.obj .nil
      mrr := Json.obj .nil
      projects := Json.obj .nil
      custom := Json.obj .nil
      extraction_config := Json.obj .nil
      curation := false
      no_extract := false
      incremental_update := Json.bool false
      data_sources := []
      external_uri := none
      data_destinations := []
      index := []
      services := []
      tags := []
      links := []
      dataset_acl := none
      source_id := none }

/-! ## `add_index` -/

/-- An apostrophe, written via its code point. -/
def apos : String := String.mk [Char.ofNat 39]

/-- The message of the `ValueError` that `json.dumps(..., allow_nan=False)`
raises on a non-finite float. -/
def oorMsg : String := "Out of range float values are not JSON compliant"

/-- Python `repr` of that `ValueError`, as interpolated by the client's
error strings. -/
def valueErrorRepr : String := "ValueError(" ++ apos ++ oorMsg ++ apos ++ ")"

/-- `add_index` (lines 330-377): validates the mapping's
JSON-serializability, then stores `{mapping, delimiter?, na_values?}` under
`data_type`, overwriting any previous entry for that key.  Returns the
Python return value (the error string, or `None` on success) paired with
the resulting client state. -/
def add_index (c : Client) (data_type : String) (mapping : Json)
    (delimiter : Option String) (na_values : Option Json) :
    Option String × Client :=
  if !mapping.serializable then
    (some ("Error: Your mapping is invalid: " ++ valueErrorRepr), c)
  else
    (none,
      { c with
        index := dictSet c.index data_type
          { mapping := mapping
            delimiter := delimiter
            na_values := na_values.map entryToList } })

/-! ## `get_submission` and `submit_dataset` -/

/-- A Python dict at the top level of a submission: key presence is
observable (`submission["k"]` raises `KeyError` when the key is absent). -/
abbrev Envelope := List (String × Json)

/-- The JSON value of one stored indexing instruction, as embedded in the
envelope. -/
def IndexEntry.toJson (e : IndexEntry) : Json :=
  Json.obj (JsonObj.ofList
    ([("mapping", e.mapping)]
      ++ (match e.delimiter with
          | some d => [("delimiter", Json.str d)]
          | none => [])
      ++ (match e.na_values with
          | some l => [("na_values", Json.arr (JsonArr.ofList l))]
          | none => [])))

/-- A conditionally-present envelope entry (`if self.x: submission["x"] = ...`). -/
def optEntry (b : Bool) (k : String) (v : Json) : Envelope :=
  if b then [(k, v)] else []

/-- `get_submission` (lines 681-723): `dc`, `data_sources`, `test` and
`update` always; every other key only when its field is truthy. -/
def get_submission (c : Client) : Envelope :=
  [("dc", c.dc),
   ("data_sources", Json.arr (JsonArr.ofList (c.data_sources.map Json.str))),
   ("test", Json.bool c.test),
   ("update", Json.bool c.update)]
  ++ optEntry c.mdf.pyTruthy "mdf" c.mdf
  ++ optEntry c.mrr.pyTruthy "mrr" c.mrr
  ++ optEntry c.custom.pyTruthy "custom" c.custom
  ++ optEntry c.projects.pyTruthy "projects" c.projects
  ++ optEntry (!c.data_destinations.isEmpty) "data_destinations"
      (Json.arr (JsonArr.ofList (c.data_destinations.map Json.str)))
  ++ optEntry (match c.external_uri with | some u => u != "" | none => false)
      "external_uri" (Json.str (c.external_uri.getD ""))
  ++ optEntry (!c.index.isEmpty) "index"
      (Json.obj (JsonObj.ofList (c.index.map fun kv => (kv.1, kv.2.toJson))))
  ++ optEntry c.extraction_config.pyTruthy "extraction_config" c.extraction_config
  ++ optEntry (!c.services.isEmpty) "services" (Json.obj (JsonObj.ofList c.services))
  ++ optEntry (!c.tags.isEmpty) "tags" (Json.arr (JsonArr.ofList (c.tags.map Json.str)))
  ++ optEntry (!c.links.isEmpty) "links" (Json.arr (JsonArr.ofList c.links))
  ++ optEntry c.curation "curation" (Json.bool c.curation)
  ++ optEntry c.no_extract "no_extract" (Json.bool c.no_extract)
  ++ optEntry (match c.dataset_acl with | some l => !l.isEmpty | none => false)
      "dataset_acl" (Json.arr (JsonArr.ofList ((c.dataset_acl.getD []).map Json.str)))
  ++ optEntry c.incremental_update.pyTruthy "incremental_update" c.incremental_update

/-- The result dict `{source_id, success, error}` of an early return from
`submit_dataset`. -/
structure SubmitResult where
  source_id : Option String
  success : Bool
  error : Option String

/-- Line 802: the already-submitted guard's error text (two adjacent
Python string literals). -/
def alreadySubmittedMsg : String :=
  "You have already submitted this dataset. Set update=True to resubmit it"

/-- Line 814: the required-data error text. -/
def populateMsg : String := "You must populate the dc and data blocks before submission."

/-- Line 823: the JSON validation error text, with the interpolated
`repr` of the `ValueError`. -/
def invalidJsonMsg : String := "The submission JSON is invalid: " ++ valueErrorRepr

/-- How far `submit_dataset` gets before any network I/O: an early
structured return, an uncaught `KeyError` from the required-data check, or
the first `requests.post` with the validated envelope. -/
inductive SubmitOutcome where
  | early (result : SubmitResult) (after : Client)
  | keyError (key : String)
  | network (envelope : Envelope) (after : Client)

/-- Truthiness of an envelope dict (`not submission`). -/
def envTruthy : Envelope → Bool
  | [] => false
  | _ :: _ => true

/-- Python truthiness of an optional string (`None` and `""` falsy), as
tested on `self.source_id` and on `reason`. -/
def optStrTruthy : Option String → Bool
  | none => false
  | some s => s != ""

/-- The required-data condition of lines 809-810,
`(not submission["dc"] or not submission["data_sources"]) and not
submission["incremental_update"]`, with Python's left-to-right
short-circuit evaluation; `.error k` models the `KeyError` raised when the
evaluated key `k` is absent. -/
def requiredCheck (e : Envelope) : Except String Bool :=
  match dictFind e "dc" with
  | none => .error "dc"
  | some dc =>
    if dc.pyTruthy then
      match dictFind e "data_sources" with
      | none => .error "data_sources"
      | some ds =>
        if ds.pyTruthy then .ok false
        else
          match dictFind e "incremental_update" with
          | none => .error "incremental_update"
          | some inc => .ok (!inc.pyTruthy)
    else
      match dictFind e "incremental_update" with
      | none => .error "incremental_update"
      | some inc => .ok (!inc.pyTruthy)

/-- Does every value of the envelope serialize
(`json.dumps(submission, allow_nan=False)`, line 818)? -/
def envSerializable : Envelope → Bool
  | [] => true
  | (_, v) :: rest => v.serializable && envSerializable rest

/-- Lines 808-825 of `submit_dataset`: the required-data check and the JSON
validation, stopping at the I/O boundary (line 829's `requests.post`). -/
def submitChecks (c : Client) (e : Envelope) : SubmitOutcome :=
  match requiredCheck e with
  | .error k => .keyError k
  | .ok true => .early ⟨none, false, some populateMsg⟩ c
  | .ok false =>
    if !envSerializable e then .early ⟨none, false, some invalidJsonMsg⟩ c
    else .network e c

/-- Lines 795-806 for a falsy `submission` argument: the already-submitted
guard, then `self.update = update` and envelope assembly. -/
def submitViaState (c : Client) (update : Bool) : SubmitOutcome :=
  if !update && optStrTruthy c.source_id then
    .early ⟨none, false, some alreadySubmittedMsg⟩ c
  else
    submitChecks { c with update := update } (get_submission { c with update := update })

/-- `submit_dataset` (lines 767-830) up to the I/O boundary.  A supplied
but falsy (empty) submission dict fails `if not submission:` and is treated
exactly like `None`.  The `reset` argument of the Python method only acts
after the network call and so lies beyond the modelled prefix. -/
def submit_dataset (c : Client) (update : Bool) (submission : Option Envelope) : SubmitOutcome :=
  match submission with
  | some e => if envTruthy e then submitChecks c e else submitViaState c update
  | none => submitViaState c update

/-! ## `_complete_curation_task` -/

/-- `DEFAULT_CURATION_REASONS` (lines 25-29). -/
def default_curation_reasons : List (String × String) :=
  [("accept", "This submission has been accepted because it meets the appropriate standards"),
   ("reject", "This submission has been rejected because it does not meet the appropriate standards")]

inductive HttpMethod where
  | get
  | post
deriving DecidableEq

/-- One observable action of the verdict-submission segment (lines
1405-1419): an HTTP request carrying the `{action, reason}` command, or the
single credential refresh `self.__authorizer.handle_missing_authorization()`. -/
inductive CurEvent where
  | request (m : HttpMethod) (url : String) (command : List (String × String))
  | refreshCredentials
deriving DecidableEq

/-- How `_complete_curation_task` ends, up to the interpretation of the
final response (which no claim concerns). -/
inductive CurOutcome where
  | invalidVerdict (error : String)
  | taskNotFound (error : String)
  | taskFetchError (error : String)
  | cancelled
  | sent (command : List (String × String)) (trace : List CurEvent)
deriving DecidableEq

/-- Python `repr` of `dict.keys()` for `DEFAULT_CURATION_REASONS`. -/
def dictKeysRepr : String :=
  "dict_keys([" ++ apos ++ "accept" ++ apos ++ ", " ++ apos ++ "reject" ++ apos ++ "])"

/-- Lines 1348-1349: the invalid-verdict error, interpolating the already
normalized verdict. -/
def invalidVerdictMsg (v : String) : String :=
  "Verdict " ++ apos ++ v ++ apos ++ " is invalid. Valid verdicts are: " ++ dictKeysRepr

/-- The final `reason` sent with a verdict (lines 1398-1403): the prompt
reply when prompting was confirmed with no reason supplied, then the
per-verdict default when still falsy. -/
def curationReason (v : String) (reason : Option String) (prompt : Bool)
    (promptReason : String) : String :=
  let reason1 :=
    if prompt && !optStrTruthy reason then some (pyStripStr promptReason) else reason
  if !optStrTruthy reason1 then (dictFind default_curation_reasons v).getD ""
  else reason1.getD ""

/-- The `command = {"action": verdict, "reason": reason}` dict of lines
1406-1409, for the already-normalized verdict `v`. -/
def curationCommand (v : String) (reason : Option String) (prompt : Bool)
    (promptReason : String) : List (String × String) :=
  [("action", v), ("reason", curationReason v reason prompt promptReason)]

/-- The request sequence of lines 1412-1419: one POST of the command, and on
a 401/403 answer one credential refresh followed by one re-issue of the
command — which the source performs with `requests.get`. -/
def verdictTrace (url : String) (command : List (String × String))
    (verdictStatus : Nat) : List CurEvent :=
  CurEvent.request .post url command ::
    (if verdictStatus = 401 || verdictStatus = 403 then
      [CurEvent.refreshCredentials, CurEvent.request .get url command]
    else [])

/-- `_complete_curation_task` (lines 1317-1419) up to the parsing of the
verdict response.  The external collaborators enter as oracles:
`taskStatus` and `taskErrorField` are the `status_code` and optional
`error` field of the raw `get_curation_task` lookup, `promptAnswer` and
`promptReason` the interactive `input()` replies, and `verdictStatus` the
status code of the first verdict request.  The trace of a `sent` outcome
records, in order, the requests of the verdict-submission segment and the
credential refresh between them. -/
def complete_curation_task (c : Client) (source_id : String) (verdict : String)
    (reason : Option String) (prompt : Bool) (promptAnswer : String)
    (promptReason : String) (taskStatus : Nat) (taskErrorField : Option String)
    (verdictStatus : Nat) : CurOutcome :=
  if (dictFind default_curation_reasons (pyStripLower verdict)).isNone then
    .invalidVerdict (invalidVerdictMsg (pyStripLower verdict))
  else if taskStatus = 404 then
    .taskNotFound (taskErrorField.getD "Curation task not found")
  else if taskStatus ≥ 300 then
    .taskFetchError (taskErrorField.getD "MDF Connect may be experiencing technical difficulties.")
  else if prompt && pyStripLower promptAnswer != "yes" then
    .cancelled
  else
    .sent (curationCommand (pyStripLower verdict) reason prompt promptReason)
      (verdictTrace (c.service_loc ++ CONNECT_CURATION_ROUTE ++ source_id)
        (curationCommand (pyStripLower verdict) reason prompt promptReason) verdictStatus)

/-! ## Helper lemmas -/

theorem JsonArr.toList_ofList : ∀ l : List Json, (JsonArr.ofList l).toList = l
  | [] => rfl
  | x :: xs => by simp [JsonArr.ofList, JsonArr.toList, toList_ofList xs]

theorem getD_replicate_lt {α : Type} (x d : α) :
    ∀ (n i : Nat), i < n → (List.replicate n x).getD i d = x
  | 0, i, h => absurd h (Nat.not_lt_zero i)
  | _ + 1, 0, _ => rfl
  | n + 1, i + 1, h => getD_replicate_lt x d n i (Nat.lt_of_succ_lt_succ h)

theorem creators_zip_get? :
    ∀ (l1 : List String) (l2 : List Json) (i : Nat), i < l1.length → i < l2.length →
      ((l1.zip l2).map fun p => mkCreator p.1 (entryToList p.2)).get? i =
        some (mkCreator (l1.getD i "") (entryToList (l2.getD i Json.null)))
  | [], _, i, h1, _ => absurd h1 (by simp)
  | _ :: _, [], _, _, h2 => absurd h2 (by simp)
  | _ :: _, _ :: _, 0, _, _ => rfl
  | _ :: l1, _ :: l2, i + 1, h1, h2 =>
    creators_zip_get? l1 l2 i (Nat.lt_of_succ_lt_succ h1) (Nat.lt_of_succ_lt_succ h2)

/-! ## Claim C1 -/

/-- C1: in `create_dc_block` with `N = authors.length`, when the normalized
affiliations list's length differs from `N`, every creator's
`"affiliations"` key holds the entire unflattened normalized list (absent,
per `if affs:`, exactly when that list is empty); when the length equals
`N`, creator `i` holds exactly entry `i` (a non-list entry as its singleton
normalization, absent when the entry is an empty list). -/
theorem create_dc_block_affiliation_alignment (authors : List String) (a : Option Json)
    (i : Nat) (hi : i < authors.length) :
    ((normalizeAffiliations a).length ≠ authors.length →
      ((buildCreators authors a).get? i).map Creator.affiliations =
        some (affKey (normalizeAffiliations a)))
  ∧ ((normalizeAffiliations a).length = authors.length →
      ((buildCreators authors a).get? i).map Creator.affiliations =
        some (affKey (entryToList ((normalizeAffiliations a).getD i Json.null)))) := by
  constructor
  · intro hne
    have hlen : ¬(authors.length = (normalizeAffiliations a).length) := fun h => hne h.symm
    simp only [buildCreators, if_neg hlen]
    rw [creators_zip_get? authors _ i hi (by simpa using hi)]
    rw [getD_replicate_lt _ _ _ _ hi]
    simp [mkCreator, entryToList, JsonArr.toList_ofList]
  · intro hlen
    simp only [buildCreators, if_pos hlen.symm]
    rw [creators_zip_get? authors _ i hi (hlen ▸ hi)]
    simp [mkCreator]

/-- Witness for C1: with the docstring's three authors and two affiliation
entries the whole pair is broadcast to author 1; with two authors and two
entries author 0 gets entry 0. -/
theorem create_dc_block_affiliation_alignment_witness :
    ((buildCreators ["Fromnist, Alice", "Fromnist; Bob", "Cathy Multiples"]
        (some (Json.arr (JsonArr.ofList [Json.str "NIST", Json.str "UChicago"])))).get? 1).map
        Creator.affiliations =
      some (affKey (normalizeAffiliations
        (some (Json.arr (JsonArr.ofList [Json.str "NIST", Json.str "UChicago"])))))
  ∧ ((buildCreators ["Fromnist, Alice", "Fromnist; Bob"]
        (some (Json.arr (JsonArr.ofList [Json.str "NIST", Json.str "UChicago"])))).get? 0).map
        Creator.affiliations =
      some (affKey (entryToList ((normalizeAffiliations
        (some (Json.arr (JsonArr.ofList [Json.str "NIST", Json.str "UChicago"])))).getD 0
        Json.null))) :=
  ⟨(create_dc_block_affiliation_alignment ["Fromnist, Alice", "Fromnist; Bob", "Cathy Multiples"]
      (some (Json.arr (JsonArr.ofList [Json.str "NIST", Json.str "UChicago"]))) 1
      (by decide)).1 (by decide),
   (create_dc_block_affiliation_alignment ["Fromnist, Alice", "Fromnist; Bob"]
      (some (Json.arr (JsonArr.ofList [Json.str "NIST", Json.str "UChicago"]))) 0
      (by decide)).2 (by decide)⟩

/-! ## Claim C8 -/

/-- C8: the per-author name splitting used by `create_dc_block` satisfies
the Name Parser contract on its canonical examples, as observed through the
creator records the method builds: `"Family, Given"` and `"Family; Given"`
give family `"Family"` / given `"Given"`, `"Given Family"` gives given
`"Given"` / family `"Family"`, and a single token is all given name. -/
theorem create_dc_block_name_splitting :
    (mkCreator "Family, Given" []).familyName = "Family"
  ∧ (mkCreator "Family, Given" []).givenName = "Given"
  ∧ (mkCreator "Family; Given" []).familyName = "Family"
  ∧ (mkCreator "Family; Given" []).givenName = "Given"
  ∧ (mkCreator "Given Family" []).givenName = "Given"
  ∧ (mkCreator "Given Family" []).familyName = "Family"
  ∧ (mkCreator "OnlyOneToken" []).givenName = "OnlyOneToken"
  ∧ (mkCreator "OnlyOneToken" []).familyName = "" :=
  ⟨rfl, rfl, rfl, rfl, rfl, rfl, rfl, rfl⟩

/-! ## Claim C3 -/

/-- C3 counterexample: `reset_submission` never assigns `self.update`, so a
client whose update flag was set (as `submit_dataset` does on every
non-explicit submission) keeps it across a reset, while the construction
default is `False`.  This falsifies the claim that the update flag returns
to its construction default with only the test flag and endpoint excepted. -/
theorem reset_submission_keeps_update_flag :
    (reset_submission { initClient false CONNECT_SERVICE_LOC with update := true }).update = true
  ∧ (initClient false CONNECT_SERVICE_LOC).update = false :=
  ⟨rfl, rfl⟩

/-- C3 amended: after `reset_submission` every submission field (dc, mdf,
mrr, projects, custom, extraction_config, curation, no_extract,
incremental_update, data_sources, external_uri, data_destinations, index,
services, tags, links, dataset_acl, source_id) returns to its construction
default, while the test flag, the configured service endpoint **and the
update flag** retain their pre-reset values. -/
theorem reset_submission_restores_defaults (c : Client) :
    reset_submission c = { initClient c.test c.service_loc with update := c.update } := rfl

/-! ## Claims C6 and C7: `add_index` -/

theorem dictFind_dictSet_self {α : Type} (k : String) (v : α) :
    ∀ l : List (String × α), dictFind (dictSet l k v) k = some v := by
  intro l
  induction l with
  | nil => simp [dictSet, dictFind]
  | cons p rest ih =>
    obtain ⟨k', v'⟩ := p
    by_cases h : (k' == k) = true
    · simp [dictSet, dictFind, h]
    · simp only [dictSet, Bool.not_eq_true] at *
      rw [if_neg (by simp [h])]
      simpa [dictFind, h] using ih

theorem dictFind_dictSet_ne {α : Type} (k k' : String) (v : α) (hne : (k == k') = false) :
    ∀ l : List (String × α), dictFind (dictSet l k v) k' = dictFind l k' := by
  intro l
  induction l with
  | nil => simp [dictSet, dictFind, hne]
  | cons p rest ih =>
    obtain ⟨k2, v2⟩ := p
    by_cases h : (k2 == k) = true
    · have hk2 : k2 = k := by simpa using h
      subst hk2
      simp [dictSet, dictFind, hne, ih]
    · simp only [dictSet, Bool.not_eq_true] at *
      rw [if_neg (by simp [h])]
      by_cases h2 : (k2 == k') = true
      · simp [dictFind, h2]
      · simp [dictFind, h2, ih]

/-- C6: for every mapping that is not JSON-serializable (it contains a NaN
or Infinity), `add_index` returns the error string — which contains the
phrase "not JSON compliant" — and leaves the client, in particular its
stored index instructions, completely unchanged. -/
theorem add_index_invalid_mapping (c : Client) (dt : String) (m : Json)
    (d : Option String) (na : Option Json) (h : m.serializable = false) :
    add_index c dt m d na = (some ("Error: Your mapping is invalid: " ++ valueErrorRepr), c)
  ∧ listHasSub "not JSON compliant".toList
      ("Error: Your mapping is invalid: " ++ valueErrorRepr).toList = true := by
  refine ⟨?_, by decide⟩
  simp [add_index, h]

/-- Witness for C6: a mapping with a non-finite float value is rejected
with the stored instructions untouched. -/
theorem add_index_invalid_mapping_witness :
    add_index (initClient false CONNECT_SERVICE_LOC) "csv"
        (Json.obj (.cons "material.composition" Json.nanOrInf .nil)) none none =
      (some ("Error: Your mapping is invalid: " ++ valueErrorRepr),
        initClient false CONNECT_SERVICE_LOC)
  ∧ listHasSub "not JSON compliant".toList
      ("Error: Your mapping is invalid: " ++ valueErrorRepr).toList = true :=
  add_index_invalid_mapping (initClient false CONNECT_SERVICE_LOC) "csv"
    (Json.obj (.cons "material.composition" Json.nanOrInf .nil)) none none rfl

/-- C7: for valid mappings `m1`, `m2`, calling `add_index` twice with the
same `data_type` leaves exactly the instruction built from the second call
stored under that key — no trace of `m1` — and instructions stored under
any other key are unaffected. -/
theorem add_index_overwrite (c : Client) (dt : String) (m1 m2 : Json)
    (d1 d2 : Option String) (na1 na2 : Option Json)
    (h1 : m1.serializable = true) (h2 : m2.serializable = true) :
    dictFind ((add_index (add_index c dt m1 d1 na1).2 dt m2 d2 na2).2).index dt =
      some ⟨m2, d2, na2.map entryToList⟩
  ∧ ∀ k, (dt == k) = false →
      dictFind ((add_index (add_index c dt m1 d1 na1).2 dt m2 d2 na2).2).index k =
        dictFind c.index k := by
  constructor
  · simp [add_index, h1, h2, dictFind_dictSet_self]
  · intro k hk
    simp [add_index, h1, h2, dictFind_dictSet_ne _ _ _ hk]

/-- Witness for C7: overwriting the `"csv"` instruction stores exactly the
second mapping and leaves the (empty) `"json"` slot untouched. -/
theorem add_index_overwrite_witness :
    dictFind ((add_index (add_index (initClient false CONNECT_SERVICE_LOC) "csv"
        (Json.obj (.cons "material.composition" (Json.str "header1") .nil))
        (some "#") (some (Json.str "zero"))).2 "csv"
        (Json.obj (.cons "crystal_structure.space_group_number" (Json.str "csv_header_2") .nil))
        none none).2).index "csv" =
      some ⟨Json.obj (.cons "crystal_structure.space_group_number" (Json.str "csv_header_2") .nil),
        none, none⟩
  ∧ dictFind ((add_index (add_index (initClient false CONNECT_SERVICE_LOC) "csv"
        (Json.obj (.cons "material.composition" (Json.str "header1") .nil))
        (some "#") (some (Json.str "zero"))).2 "csv"
        (Json.obj (.cons "crystal_structure.space_group_number" (Json.str "csv_header_2") .nil))
        none none).2).index "json" =
      dictFind (initClient false CONNECT_SERVICE_LOC).index "json" :=
  ⟨(add_index_overwrite (initClient false CONNECT_SERVICE_LOC) "csv"
      (Json.obj (.cons "material.composition" (Json.str "header1") .nil))
      (Json.obj (.cons "crystal_structure.space_group_number" (Json.str "csv_header_2") .nil))
      (some "#") none (some (Json.str "zero")) none rfl rfl).1,
   (add_index_overwrite (initClient false CONNECT_SERVICE_LOC) "csv"
      (Json.obj (.cons "material.composition" (Json.str "header1") .nil))
      (Json.obj (.cons "crystal_structure.space_group_number" (Json.str "csv_header_2") .nil))
      (some "#") none (some (Json.str "zero")) none rfl rfl).2 "json" (by decide)⟩

/-! ## Claims C2, C4 and C9: `submit_dataset` -/

theorem submit_dataset_truthy (c : Client) (u : Bool) (e : Envelope)
    (he : envTruthy e = true) : submit_dataset c u (some e) = submitChecks c e := by
  simp [submit_dataset, he]

theorem submitChecks_early_error (c : Client) (e : Envelope) (r : SubmitResult) (c' : Client)
    (heq : submitChecks c e = .early r c') :
    r.error = some populateMsg ∨ r.error = some invalidJsonMsg := by
  unfold submitChecks at heq
  split at heq
  · cases heq
  · injection heq with h1 _
    exact Or.inl (by rw [← h1])
  · split at heq
    · injection heq with h1 _
      exact Or.inr (by rw [← h1])
    · cases heq

/-- C2 counterexample: an explicitly supplied but *empty* submission dict
fails Python's `if not submission:` test, so the already-submitted guard is
**not** skipped for it — falsifying the claim that supplying an explicit
submission dict always skips the guard. -/
theorem submit_dataset_empty_dict_hits_guard :
    submit_dataset { initClient false CONNECT_SERVICE_LOC with source_id := some "st-abc" }
        false (some []) =
      .early ⟨none, false, some alreadySubmittedMsg⟩
        { initClient false CONNECT_SERVICE_LOC with source_id := some "st-abc" } := rfl

/-- C2 amended: with no explicit submission — or an explicitly supplied but
empty dict, which `if not submission:` treats identically — calling
`submit_dataset` with `update=False` while a truthy `source_id` is stored
returns `{source_id: None, success: False}` with the already-submitted
error as an `early` outcome, i.e. before the line-829 POST is ever reached;
and the guard is skipped whenever a *non-empty* explicit submission dict is
supplied: no such call can return the already-submitted error. -/
theorem submit_dataset_already_submitted_guard (c : Client) (u : Bool)
    (s : Option Envelope) :
    ((s = none ∨ s = some []) → u = false → optStrTruthy c.source_id = true →
      submit_dataset c u s = .early ⟨none, false, some alreadySubmittedMsg⟩ c)
  ∧ (∀ e, envTruthy e = true → ∀ r c', submit_dataset c u (some e) = .early r c' →
      r.error ≠ some alreadySubmittedMsg) := by
  constructor
  · intro hs hu hsrc
    subst hu
    rcases hs with rfl | rfl <;>
      simp [submit_dataset, envTruthy, submitViaState, hsrc]
  · intro e he r c' heq hbad
    rw [submit_dataset_truthy c u e he] at heq
    rcases submitChecks_early_error c e r c' heq with h | h <;> rw [h] at hbad
    · exact absurd (Option.some.inj hbad) (by decide)
    · exact absurd (Option.some.inj hbad) (by decide)

/-- Witness for C2's amended theorem: the guard fires on a stored
source_id with `submission=None`, and a non-empty explicit dict that takes
an early return yields the populate-error, not the already-submitted one. -/
theorem submit_dataset_already_submitted_guard_witness :
    submit_dataset { initClient false CONNECT_SERVICE_LOC with source_id := some "st-123" }
        false none =
      .early ⟨none, false, some alreadySubmittedMsg⟩
        { initClient false CONNECT_SERVICE_LOC with source_id := some "st-123" }
  ∧ (⟨none, false, some populateMsg⟩ : SubmitResult).error ≠ some alreadySubmittedMsg :=
  ⟨(submit_dataset_already_submitted_guard
      { initClient false CONNECT_SERVICE_LOC with source_id := some "st-123" } false none).1
      (Or.inl rfl) rfl rfl,
   (submit_dataset_already_submitted_guard
      { initClient false CONNECT_SERVICE_LOC with source_id := some "st-123" } false
      (some [("dc", Json.obj (.cons "t" (Json.str "x") .nil)),
             ("data_sources", Json.arr .nil),
             ("incremental_update", Json.bool false)])).2
     [("dc", Json.obj (.cons "t" (Json.str "x") .nil)),
      ("data_sources", Json.arr .nil),
      ("incremental_update", Json.bool false)] rfl
     ⟨none, false, some populateMsg⟩
     { initClient false CONNECT_SERVICE_LOC with source_id := some "st-123" } rfl⟩

/-- C4: at the failing input — a freshly constructed client with empty `dc`
and default flags, submitting with no explicit submission — the
required-data check raises an uncaught `KeyError("incremental_update")`
instead of returning the structured populate-error the claim (and the
method's own lines 811-815 and documented return contract) describe:
`get_submission` omits the `incremental_update` key whenever the flag is
falsy, while line 810 indexes `submission["incremental_update"]` directly. -/
theorem submit_dataset_fresh_client_keyerror :
    submit_dataset (initClient false CONNECT_SERVICE_LOC) false none =
      .keyError "incremental_update" := rfl

/-- C9 counterexample: an explicitly supplied dict lacking
`"incremental_update"` but whose `dc` and `data_sources` are non-empty
reaches the network outcome — no KeyError is raised, because the `and` in
line 809-810 short-circuits before the missing key is indexed.  This
falsifies the claim that lacking *any* of the three keys raises. -/
theorem submit_dataset_missing_inc_key_no_keyerror :
    submit_dataset (initClient false CONNECT_SERVICE_LOC) false
        (some [("dc", Json.obj (.cons "x" (Json.num 1) .nil)),
               ("data_sources", Json.arr (.cons (Json.str "globus://ep/p") .nil))]) =
      .network [("dc", Json.obj (.cons "x" (Json.num 1) .nil)),
                ("data_sources", Json.arr (.cons (Json.str "globus://ep/p") .nil))]
        (initClient false CONNECT_SERVICE_LOC) := rfl

/-- C9 amended: the required-data check indexes `submission["dc"]`,
`submission["data_sources"]` and `submission["incremental_update"]`
directly, so an explicitly supplied dict raises an uncaught KeyError
precisely when Python's left-to-right short-circuit evaluation reaches a
missing key: a missing `dc` always raises; a missing `data_sources` raises
only when `dc` is truthy; a missing `incremental_update` raises only when
`dc` is falsy or `data_sources` is falsy; and when `dc` and `data_sources`
are both present and truthy no KeyError is raised at all. -/
theorem submit_dataset_keyerror_cases (c : Client) (u : Bool) (e : Envelope)
    (he : envTruthy e = true) :
    (dictFind e "dc" = none → submit_dataset c u (some e) = .keyError "dc")
  ∧ (∀ dc, dictFind e "dc" = some dc → dc.pyTruthy = true →
      dictFind e "data_sources" = none →
      submit_dataset c u (some e) = .keyError "data_sources")
  ∧ (∀ dc, dictFind e "dc" = some dc → dc.pyTruthy = false →
      dictFind e "incremental_update" = none →
      submit_dataset c u (some e) = .keyError "incremental_update")
  ∧ (∀ dc ds, dictFind e "dc" = some dc → dc.pyTruthy = true →
      dictFind e "data_sources" = some ds → ds.pyTruthy = false →
      dictFind e "incremental_update" = none →
      submit_dataset c u (some e) = .keyError "incremental_update")
  ∧ (∀ dc ds, dictFind e "dc" = some dc → dc.pyTruthy = true →
      dictFind e "data_sources" = some ds → ds.pyTruthy = true →
      ∀ k, submit_dataset c u (some e) ≠ .keyError k) := by
  rw [submit_dataset_truthy c u e he]
  refine ⟨?_, ?_, ?_, ?_, ?_⟩
  · intro h
    simp [submitChecks, requiredCheck, h]
  · intro dc hdc hdct hds
    simp [submitChecks, requiredCheck, hdc, hdct, hds]
  · intro dc hdc hdct hinc
    simp [submitChecks, requiredCheck, hdc, hdct, hinc]
  · intro dc ds hdc hdct hds hdst hinc
    simp [submitChecks, requiredCheck, hdc, hdct, hds, hdst, hinc]
  · intro dc ds hdc hdct hds hdst k
    simp only [submitChecks, requiredCheck, hdc, hdct, hds, hdst, if_true]
    by_cases hser : envSerializable e <;> simp [hser]

/-- Witness for C9's amended theorem: a dict lacking `"dc"` raises
`KeyError("dc")`. -/
theorem submit_dataset_keyerror_cases_witness :
    submit_dataset (initClient false CONNECT_SERVICE_LOC) false
        (some [("data_sources", Json.arr .nil)]) = .keyError "dc" :=
  (submit_dataset_keyerror_cases (initClient false CONNECT_SERVICE_LOC) false
      [("data_sources", Json.arr .nil)] rfl).1 rfl

/-! ## Claims C5 and C10: `_complete_curation_task` -/

/-- C5: at the failing input — a valid verdict whose first POST is answered
401 — the modelled request sequence refreshes credentials exactly once and
re-issues the command exactly once, but the re-issue (line 1418 of the
source) is an HTTP **GET**, not the same POST the claim (and every parallel
retry path in the file) describes. -/
theorem complete_curation_task_retry_is_get :
    complete_curation_task (initClient false CONNECT_SERVICE_LOC) "abc" "accept"
        (some "r") false "" "" 200 none 401 =
      .sent [("action", "accept"), ("reason", "r")]
        [.request .post (CONNECT_SERVICE_LOC ++ CONNECT_CURATION_ROUTE ++ "abc")
            [("action", "accept"), ("reason", "r")],
         .refreshCredentials,
         .request .get (CONNECT_SERVICE_LOC ++ CONNECT_CURATION_ROUTE ++ "abc")
            [("action", "accept"), ("reason", "r")]] := rfl

/-- C10: `_complete_curation_task` normalizes the verdict with
`.strip().lower()` before validating it, so every string whose stripped
lowercase form is `"accept"` or `"reject"` passes validation, and whenever
a command is sent its `"action"` entry is exactly the normalized form. -/
theorem complete_curation_task_normalizes_verdict (c : Client) (sid v : String)
    (reason : Option String) (prompt : Bool) (pa pr : String) (ts : Nat)
    (tef : Option String) (vs : Nat) :
    ((pyStripLower v = "accept" ∨ pyStripLower v = "reject") →
      ∀ err, complete_curation_task c sid v reason prompt pa pr ts tef vs ≠
        .invalidVerdict err)
  ∧ (∀ cmd tr, complete_curation_task c sid v reason prompt pa pr ts tef vs = .sent cmd tr →
      dictFind cmd "action" = some (pyStripLower v)) := by
  constructor
  · intro hv err
    have hfind : (dictFind default_curation_reasons (pyStripLower v)).isNone = false := by
      rcases hv with h | h <;> rw [h] <;> rfl
    unfold complete_curation_task
    rw [hfind]
    simp only [Bool.false_eq_true, if_false]
    split_ifs <;> simp
  · intro cmd tr heq
    unfold complete_curation_task at heq
    cases hfind : (dictFind default_curation_reasons (pyStripLower v)).isNone with
    | true => rw [hfind] at heq; simp at heq
    | false =>
      rw [hfind] at heq
      simp only [Bool.false_eq_true, if_false] at heq
      split_ifs at heq
      all_goals cases heq
      rfl

/-- Witness for C10: the padded upper-case verdict `" ACCEPT "` is accepted
and the action actually sent is its normalized form `"accept"`. -/
theorem complete_curation_task_normalizes_verdict_witness :
    complete_curation_task (initClient false CONNECT_SERVICE_LOC) "sid" " ACCEPT "
        (some "r") false "" "" 200 none 200 ≠ .invalidVerdict (invalidVerdictMsg "accept")
  ∧ dictFind [("action", "accept"), ("reason", "r")] "action" =
      some (pyStripLower " ACCEPT ") :=
  ⟨(complete_curation_task_normalizes_verdict (initClient false CONNECT_SERVICE_LOC)
      "sid" " ACCEPT " (some "r") false "" "" 200 none 200).1 (Or.inl (by decide))
      (invalidVerdictMsg "accept"),
   (complete_curation_task_normalizes_verdict (initClient false CONNECT_SERVICE_LOC)
      "sid" " ACCEPT " (some "r") false "" "" 200 none 200).2
     [("action", "accept"), ("reason", "r")]
     (verdictTrace (CONNECT_SERVICE_LOC ++ CONNECT_CURATION_ROUTE ++ "sid")
       [("action", "accept"), ("reason", "r")] 200) rfl⟩
